import Mathlib

/-!
Shallow embedding of the Win32 platform layer
(src/base/platform/platform-win32.cc) and proofs about its
allocation, file-mapping, diagnostics and timezone components.

OS primitives (VirtualAlloc, VirtualFree, CreateFileA, localtime_s, ...)
are modelled as explicit environment records; each OS call consumes a
call counter so the environment may answer differently per call, and an
event trace records the requests issued to the OS.
-/

namespace V8

/-- Memory permissions (OS::MemoryPermission in platform.h, as consumed by
platform-win32.cc). -/
inductive MemoryPermission
  | kNoAccess
  | kNoAccessWillJitLater
  | kRead
  | kReadWrite
  | kReadExecute
  | kReadWriteExecute
deriving DecidableEq, Repr

/-- Win32 page-protection constant. -/
def PAGE_NOACCESS : Nat := 0x01

/-- Win32 page-protection constant. -/
def PAGE_READONLY : Nat := 0x02

/-- Win32 page-protection constant. -/
def PAGE_READWRITE : Nat := 0x04

/-- Win32 page-protection constant. -/
def PAGE_EXECUTE_READ : Nat := 0x20

/-- Win32 page-protection constant. -/
def PAGE_EXECUTE_READWRITE : Nat := 0x40

/-- Win32 page-protection modifier (CFG: make all targets invalid). -/
def PAGE_TARGETS_INVALID : Nat := 0x40000000

/-- Win32 allocation-type constant. -/
def MEM_COMMIT : Nat := 0x1000

/-- Win32 allocation-type constant. -/
def MEM_RESERVE : Nat := 0x2000

/-- Win32 free-type constant. -/
def MEM_DECOMMIT : Nat := 0x4000

/-- Win32 free-type constant. -/
def MEM_RELEASE : Nat := 0x8000

/-- Win32 allocation-type constant. -/
def MEM_RESET : Nat := 0x80000

/-- GetProtectionFromMemoryPermission (platform-win32.cc:680-699).
`isWin10` models IsWindows10OrGreater(). -/
def GetProtectionFromMemoryPermission (isWin10 : Bool) :
    MemoryPermission → Nat
  | MemoryPermission.kNoAccess => PAGE_NOACCESS
  | MemoryPermission.kNoAccessWillJitLater => PAGE_NOACCESS
  | MemoryPermission.kRead => PAGE_READONLY
  | MemoryPermission.kReadWrite => PAGE_READWRITE
  | MemoryPermission.kReadWriteExecute =>
      if isWin10 then PAGE_EXECUTE_READWRITE ||| PAGE_TARGETS_INVALID
      else PAGE_EXECUTE_READWRITE
  | MemoryPermission.kReadExecute =>
      if isWin10 then PAGE_EXECUTE_READ ||| PAGE_TARGETS_INVALID
      else PAGE_EXECUTE_READ

/-- RoundDown (base/macros.h); the source masks with a power-of-two
alignment, which agrees with truncating division for power-of-two `m`. -/
def RoundDown (x m : Nat) : Nat := x / m * m

/-- RoundUp (base/macros.h): round `x` up to a multiple of `m`. -/
def RoundUp (x m : Nat) : Nat := (x + m - 1) / m * m

/-- AlignedAddress (platform.h): round a hint down to the alignment. -/
def AlignedAddress (address alignment : Nat) : Nat := RoundDown address alignment

/-- Environment model of the Win32 virtual-memory API. The first argument
of each field is the index of the OS call inside one platform-layer call,
so the environment may answer each call differently. Address 0 plays the
role of the NULL pointer: `valloc` returning 0 is an allocation failure,
and passing lpAddress 0 asks the OS to choose the placement. -/
structure WinMM where
  valloc : Nat → Nat → Nat → Nat → Nat → Nat
  vfree : Nat → Nat → Nat → Nat → Bool

/-- One request issued to the Win32 virtual-memory API. -/
inductive Event
  | valloc (lpAddress dwSize flAllocationType flProtect : Nat)
  | vfree (lpAddress dwSize dwFreeType : Nat)
deriving DecidableEq, Repr

/-- Result of OS::Allocate: a returned base address (0 = null / OOM) or a
CHECK failure (process abort). -/
inductive AllocResult
  | ok (base : Nat)
  | aborted
deriving DecidableEq, Repr

/-- Result of a bool-returning platform call that contains a CHECK. -/
inductive BoolResult
  | ok (b : Bool)
  | aborted
deriving DecidableEq, Repr

/-- RandomizedVirtualAlloc (platform-win32.cc:701-724). `useAslr` models
the static `use_aslr` flag (TRUE on 64-bit hosts). The hinted call is
made only when ASLR is in use and the protection is not PAGE_READWRITE;
on failure (or when the hinted call is skipped) one call with a null
lpAddress lets the OS choose the address. -/
def RandomizedVirtualAlloc (env : WinMM) (useAslr : Bool) (k : Nat)
    (size flags protect hint : Nat) : Nat × Nat × List Event :=
  if useAslr = true ∧ protect ≠ PAGE_READWRITE then
    let base := env.valloc k hint size flags protect
    if base = 0 then
      (env.valloc (k + 1) 0 size flags protect, k + 2,
        [Event.valloc hint size flags protect,
         Event.valloc 0 size flags protect])
    else
      (base, k + 1, [Event.valloc hint size flags protect])
  else
    (env.valloc k 0 size flags protect, k + 1,
      [Event.valloc 0 size flags protect])

/-- OS::Free (platform-win32.cc:782-787): VirtualFree(address, 0,
MEM_RELEASE); the size argument is only DCHECKed. -/
def Free (env : WinMM) (k : Nat) (address size : Nat) :
    Bool × Nat × List Event :=
  (env.vfree k address 0 MEM_RELEASE, k + 1, [Event.vfree address 0 MEM_RELEASE])

/-- The `flags` computation of OS::Allocate (platform-win32.cc:737-739):
only kNoAccess reserves without committing. -/
def allocationFlags (access : MemoryPermission) : Nat :=
  if access = MemoryPermission.kNoAccess then MEM_RESERVE
  else MEM_RESERVE ||| MEM_COMMIT

/-- The padded-retry loop of OS::Allocate (platform-win32.cc:760-776),
with the remaining attempt count as fuel. Each attempt allocates
`paddedSize` bytes with a cleared hint, CHECK-frees the padded region,
and re-requests exactly `size` bytes pinned at the aligned sub-address.
When the fuel runs out the C++ loop falls through with `base == nullptr`,
so the result is a null base. -/
def allocAttempts (env : WinMM) (useAslr : Bool)
    (flags protect size alignment paddedSize : Nat) :
    Nat → Nat → AllocResult × Nat × List Event
  | 0, k => (AllocResult.ok 0, k, [])
  | Nat.succ n, k =>
    let r := RandomizedVirtualAlloc env useAslr k paddedSize flags protect 0
    let base := r.1
    if base = 0 then (AllocResult.ok 0, r.2.1, r.2.2)
    else
      let f := Free env r.2.1 base paddedSize
      if f.1 = false then (AllocResult.aborted, f.2.1, r.2.2 ++ f.2.2)
      else
        let aligned_base := RoundUp base alignment
        let base2 := env.valloc f.2.1 aligned_base size flags protect
        let ev3 := r.2.2 ++ f.2.2 ++ [Event.valloc aligned_base size flags protect]
        if base2 = 0 then
          let rec' := allocAttempts env useAslr flags protect size alignment
            paddedSize n (f.2.1 + 1)
          (rec'.1, rec'.2.1, ev3 ++ rec'.2.2)
        else (AllocResult.ok base2, f.2.1 + 1, ev3)

/-- kMaxAttempts (platform-win32.cc:760). -/
def kMaxAttempts : Nat := 3

/-- OS::Allocate (platform-win32.cc:729-779). `pageSize` is the
allocation granularity returned by OS::AllocatePageSize(). The entry
DCHECKs (size and alignment multiples of the granularity, alignment at
least the granularity) become hypotheses of the theorems below. -/
def Allocate (env : WinMM) (isWin10 useAslr : Bool)
    (hint size alignment pageSize : Nat) (access : MemoryPermission) :
    AllocResult × Nat × List Event :=
  let hint1 := AlignedAddress hint alignment
  let flags := allocationFlags access
  let protect := GetProtectionFromMemoryPermission isWin10 access
  let r := RandomizedVirtualAlloc env useAslr 0 size flags protect hint1
  let base := r.1
  if base = 0 then (AllocResult.ok 0, r.2.1, r.2.2)
  else
    let aligned_base := RoundUp base alignment
    if base = aligned_base then (AllocResult.ok base, r.2.1, r.2.2)
    else
      let f := Free env r.2.1 base size
      if f.1 = false then (AllocResult.aborted, f.2.1, r.2.2 ++ f.2.2)
      else
        let paddedSize := size + (alignment - pageSize)
        let l := allocAttempts env useAslr flags protect size alignment
          paddedSize kMaxAttempts f.2.1
        (l.1, l.2.1, r.2.2 ++ f.2.2 ++ l.2.2)

/-- OS::SetPermissions (platform-win32.cc:797-805): decommit for
kNoAccess, otherwise commit with the mapped protection; the result of
the OS call is returned as a bool, with no abort path. -/
def SetPermissions (env : WinMM) (isWin10 : Bool) (k : Nat)
    (address size : Nat) (access : MemoryPermission) :
    Bool × Nat × List Event :=
  if access = MemoryPermission.kNoAccess then
    (env.vfree k address size MEM_DECOMMIT, k + 1,
      [Event.vfree address size MEM_DECOMMIT])
  else
    let protect := GetProtectionFromMemoryPermission isWin10 access
    (env.valloc k address size MEM_COMMIT protect != 0, k + 1,
      [Event.valloc address size MEM_COMMIT protect])

/-- OS::Release (platform-win32.cc:790-794): VirtualFree MEM_DECOMMIT. -/
def Release (env : WinMM) (k : Nat) (address size : Nat) :
    Bool × Nat × List Event :=
  (env.vfree k address size MEM_DECOMMIT, k + 1,
    [Event.vfree address size MEM_DECOMMIT])

/-- The MEM_RESET fallback of OS::DiscardSystemPages
(platform-win32.cc:827-831): `CHECK(ptr)` turns a VirtualAlloc failure
into a process abort. -/
def discardFallback (env : WinMM) (k : Nat) (address size : Nat) :
    BoolResult × Nat × List Event :=
  let ptr := env.valloc k address size MEM_RESET PAGE_READWRITE
  (if ptr = 0 then BoolResult.aborted else BoolResult.ok true, k + 1,
    [Event.valloc address size MEM_RESET PAGE_READWRITE])

/-- OS::DiscardSystemPages (platform-win32.cc:808-832).
`discardVirtualMemory` models the lazily resolved DiscardVirtualMemory
function pointer (`none` = not available); it returns a DWORD error code,
0 meaning success. On unavailability or failure the code falls back to
VirtualAlloc with MEM_RESET and CHECKs the result. -/
def DiscardSystemPages (env : WinMM)
    (discardVirtualMemory : Option (Nat → Nat → Nat)) (k : Nat)
    (address size : Nat) : BoolResult × Nat × List Event :=
  match discardVirtualMemory with
  | some f =>
    if f address size = 0 then (BoolResult.ok true, k, [])
    else discardFallback env k address size
  | none => discardFallback env k address size

/-! ### Memory-mapped files (platform-win32.cc:878-951) -/

/-- The (HANDLE)-1 failure value of CreateFileA, as a 64-bit pattern. -/
def INVALID_HANDLE_VALUE : Nat := 2 ^ 64 - 1

/-- Environment model for one MemoryMappedFile::open / ::create call.
Handles and pointers are numbers; 0 plays the role of NULL. -/
structure FileEnv where
  createFileA : Nat
  getFileSize : Nat
  createFileMapping : Nat
  mapViewOfFile : Nat
deriving DecidableEq, Repr

/-- FileMode (platform.h). -/
inductive FileMode
  | kReadOnly
  | kReadWrite
deriving DecidableEq, Repr

/-- Win32MemoryMappedFile (platform-win32.cc:878-895): the four owned
fields. -/
structure Win32MemoryMappedFile where
  file : Nat
  file_mapping : Nat
  memory : Nat
  size : Nat
deriving DecidableEq, Repr

/-- OS::MemoryMappedFile::open (platform-win32.cc:899-925). A zero-size
file short-circuits to a degenerate object; the result of MapViewOfFile
is stored without a null check. -/
def MemoryMappedFile.openFile (env : FileEnv) (mode : FileMode) :
    Option Win32MemoryMappedFile :=
  let file := env.createFileA
  if file = INVALID_HANDLE_VALUE then none
  else
    let size := env.getFileSize
    if size = 0 then some (Win32MemoryMappedFile.mk file 0 0 0)
    else
      let file_mapping := env.createFileMapping
      if file_mapping = 0 then none
      else some (Win32MemoryMappedFile.mk file file_mapping env.mapViewOfFile size)

/-- OS::MemoryMappedFile::create (platform-win32.cc:928-944). The file
handle is compared against nullptr (0), exactly as in the source (which
never matches CreateFileA's INVALID_HANDLE_VALUE failure value); the
copy of `initial` into the view only changes mapped bytes and is not
modelled. -/
def MemoryMappedFile.create (env : FileEnv) (size : Nat) :
    Option Win32MemoryMappedFile :=
  let file := env.createFileA
  if file = 0 then none
  else if size = 0 then some (Win32MemoryMappedFile.mk file 0 0 0)
  else
    let file_mapping := env.createFileMapping
    if file_mapping = 0 then none
    else some (Win32MemoryMappedFile.mk file file_mapping env.mapViewOfFile size)

/-- One step of ~Win32MemoryMappedFile. -/
inductive DtorEvent
  | unmapView
  | closeMapping
  | closeFile
deriving DecidableEq, Repr

/-- ~Win32MemoryMappedFile (platform-win32.cc:947-951): unmap the view if
present, close the mapping if present, close the file. -/
def destructor (m : Win32MemoryMappedFile) : List DtorEvent :=
  (if m.memory ≠ 0 then [DtorEvent.unmapView] else []) ++
    (if m.file_mapping ≠ 0 then [DtorEvent.closeMapping] else []) ++
    [DtorEvent.closeFile]

/-! ### Symbol loading for stack traces (platform-win32.cc:1049-1189) -/

/-- Event code for dbghelp.dll in the diagnostics trace. -/
def dbghelpDll : Nat := 0

/-- Event code for kernel32.dll in the diagnostics trace. -/
def kernel32Dll : Nat := 1

/-- Win32 error code ERROR_INVALID_HANDLE. -/
def ERROR_INVALID_HANDLE : Nat := 6

/-- Win32 error code ERROR_MOD_NOT_FOUND. -/
def ERROR_MOD_NOT_FOUND : Nat := 126

/-- A MODULEENTRY32W yielded by the toolhelp snapshot iterator. -/
structure ModuleEntry where
  szExePath : String
  modBaseAddr : Nat
  modBaseSize : Nat
deriving DecidableEq, Repr

/-- OS::SharedLibraryAddress. -/
structure SharedLibraryAddress where
  library_path : String
  start_ : Nat
  end_ : Nat
deriving DecidableEq, Repr

/-- Environment model for the diagnostics subsystem: LoadLibrary results
(0 = missing), GetProcAddress per function index (the 10 dbghelp
functions are 0-9, the 3 toolhelp functions 10-12; 0 = missing), the
outcomes of the symbol-engine calls, and the snapshot's module list with
the per-module SymLoadModule64 result and GetLastError value. -/
structure DbgEnv where
  loadLibrary : Nat → Nat
  getProcAddress : Nat → Nat
  symInitOk : Bool
  symGetSearchPathOk : Bool
  snapshotOk : Bool
  modules : List ModuleEntry
  symLoadBase : Nat → Nat
  lastError : Nat → Nat

/-- The process-wide static state of the diagnostics subsystem:
`dbghelp_loaded` (LoadDbgHelpAndTlHelp32), `symbols_loaded` and the
static `result` vector (LoadSymbols). -/
structure DbgState where
  dbghelp_loaded : Bool
  symbols_loaded : Bool
  result : List SharedLibraryAddress
deriving DecidableEq, Repr

/-- The state at process start: nothing loaded, empty memo. -/
def DbgState.init : DbgState := DbgState.mk false false []

/-- One OS request made by the diagnostics subsystem. -/
inductive DbgEvent
  | loadLibrary (module : Nat)
  | getProcAddress (fnIdx : Nat)
  | symInit
  | symGetSearchPath
  | createSnapshot
  | symLoadModule (i : Nat)
deriving DecidableEq, Repr

/-- The GetProcAddress requests for the ten dbghelp.dll functions. -/
def dbghelpProcEvents : List DbgEvent :=
  (List.range 10).map DbgEvent.getProcAddress

/-- The GetProcAddress requests for the three TlHelp32 functions. -/
def tlhelpProcEvents : List DbgEvent :=
  (List.range 3).map fun i => DbgEvent.getProcAddress (10 + i)

/-- LoadDbgHelpAndTlHelp32 (platform-win32.cc:1049-1099). The static
`dbghelp_loaded` short-circuits only after a fully successful load; a
failed load leaves it false, so the next call repeats the LoadLibrary
calls. The result is true exactly when all 13 functions resolved. -/
def LoadDbgHelpAndTlHelp32 (env : DbgEnv) (st : DbgState) :
    Bool × DbgState × List DbgEvent :=
  if st.dbghelp_loaded then (true, st, [])
  else if env.loadLibrary dbghelpDll = 0 then
    (false, st, [DbgEvent.loadLibrary dbghelpDll])
  else if env.loadLibrary kernel32Dll = 0 then
    (false, st,
      DbgEvent.loadLibrary dbghelpDll :: dbghelpProcEvents ++
        [DbgEvent.loadLibrary kernel32Dll])
  else
    let ok := (List.range 13).all fun i => env.getProcAddress i != 0
    (ok, { st with dbghelp_loaded := ok },
      DbgEvent.loadLibrary dbghelpDll :: dbghelpProcEvents ++
        DbgEvent.loadLibrary kernel32Dll :: tlhelpProcEvents)

/-- The module-enumeration loop of LoadSymbols
(platform-win32.cc:1143-1173). `acc` is the current content of the
static `result` vector (push_back targets). A SymLoadModule64 failure
with an unexpected error code clears the vector and returns; reaching
the end of the snapshot sets `symbols_loaded` and stores the vector. -/
def loadModulesLoop (env : DbgEnv) (st : DbgState) :
    Nat → List ModuleEntry → List SharedLibraryAddress →
    List SharedLibraryAddress × DbgState × List DbgEvent
  | _, [], acc => (acc, { st with symbols_loaded := true, result := acc }, [])
  | i, m :: ms, acc =>
    if env.symLoadBase i = 0 ∧ env.lastError i ≠ ERROR_MOD_NOT_FOUND ∧
        env.lastError i ≠ ERROR_INVALID_HANDLE then
      ([], { st with result := [] }, [DbgEvent.symLoadModule i])
    else
      let entry := SharedLibraryAddress.mk m.szExePath m.modBaseAddr
        (m.modBaseAddr + m.modBaseSize)
      let r := loadModulesLoop env st (i + 1) ms (acc ++ [entry])
      (r.1, r.2.1, DbgEvent.symLoadModule i :: r.2.2)

/-- LoadSymbols (platform-win32.cc:1108-1178). The static `result` is
returned unchanged once `symbols_loaded` is set; every failure path
returns the current vector without setting `symbols_loaded`. -/
def LoadSymbols (env : DbgEnv) (st : DbgState) :
    List SharedLibraryAddress × DbgState × List DbgEvent :=
  if st.symbols_loaded then (st.result, st, [])
  else if env.symInitOk = false then (st.result, st, [DbgEvent.symInit])
  else if env.symGetSearchPathOk = false then
    (st.result, st, [DbgEvent.symInit, DbgEvent.symGetSearchPath])
  else if env.snapshotOk = false then
    (st.result, st,
      [DbgEvent.symInit, DbgEvent.symGetSearchPath, DbgEvent.createSnapshot])
  else
    let r := loadModulesLoop env st 0 env.modules st.result
    (r.1, r.2.1,
      [DbgEvent.symInit, DbgEvent.symGetSearchPath, DbgEvent.createSnapshot] ++
        r.2.2)

/-- OS::GetSharedLibraryAddresses (platform-win32.cc:1181-1189). -/
def GetSharedLibraryAddresses (env : DbgEnv) (st : DbgState) :
    List SharedLibraryAddress × DbgState × List DbgEvent :=
  let l := LoadDbgHelpAndTlHelp32 env st
  if l.1 = false then ([], l.2.1, l.2.2)
  else
    let s := LoadSymbols env l.2.1
    (s.1, s.2.1, l.2.2 ++ s.2.2)

/-! ### Local time and timezone (platform-win32.cc:38-132, 200-363,
393-414) -/

/-- The initialized TIME_ZONE_INFORMATION snapshot plus the derived zone
names of a WindowsTimezoneCache. `StandardDateMonth` / `DaylightDateMonth`
are tzinfo_.StandardDate.wMonth / tzinfo_.DaylightDate.wMonth. -/
structure TZInfo where
  Bias : Int
  StandardBias : Int
  DaylightBias : Int
  StandardDateMonth : Nat
  DaylightDateMonth : Nat
  stdName : String
  dstName : String
deriving DecidableEq, Repr

/-- The local calendar breakdown returned by localtime_s; only the
tm_isdst field is consumed by Win32Time::LocalOffset. -/
structure TM where
  tm_isdst : Int
deriving DecidableEq, Repr

/-- Environment model of localtime_s: `none` models a nonzero (failure)
return. -/
structure TimeEnv where
  localtime : Int → Option TM

/-- Win32Time::kTimeEpoc: 1601-to-1970 offset in 100ns units. -/
def kTimeEpoc : Int := 116444736000000000

/-- Win32Time::kTimeScaler: 100ns units per millisecond. -/
def kTimeScaler : Int := 10000

/-- Win32Time::kMsPerMinute. -/
def kMsPerMinute : Int := 60000

/-- INT_MAX, the bound used for the 32-bit time_t range check. -/
def INT_MAX : Int := 2147483647

/-- Win32Time::LocalOffset (platform-win32.cc:293-323). C++ int64
division truncates toward zero, hence Int.tdiv. `jsround` is always a
multiple of 1000, so the double division `ToJSTime() / 1000` is exact
and its comparison against INT_MAX / 0 and the time_t cast coincide
with integer arithmetic. -/
def LocalOffset (cache : TZInfo) (env : TimeEnv) (jstime : Int) : Int :=
  let t := jstime * kTimeScaler + kTimeEpoc
  let rounded := (t.tdiv 1000).tdiv kTimeScaler * 1000 * kTimeScaler
  let jsround := (rounded - kTimeEpoc).tdiv kTimeScaler
  let posix := jsround.tdiv 1000
  if posix > INT_MAX ∨ posix < 0 then 0
  else
    match env.localtime posix with
    | none => 0
    | some tm =>
      if tm.tm_isdst > 0 then (cache.Bias + cache.DaylightBias) * (-kMsPerMinute)
      else if tm.tm_isdst = 0 then
        (cache.Bias + cache.StandardBias) * (-kMsPerMinute)
      else cache.Bias * (-kMsPerMinute)

/-- Win32Time::InDST (platform-win32.cc:327-348): with no transition
dates DST is never in effect; otherwise DST holds when the local offset
equals the daylight offset. -/
def InDST (cache : TZInfo) (env : TimeEnv) (jstime : Int) : Bool :=
  if cache.StandardDateMonth ≠ 0 ∨ cache.DaylightDateMonth ≠ 0 then
    LocalOffset cache env jstime == -(cache.Bias + cache.DaylightBias) * kMsPerMinute
  else false

/-- Win32Time::DaylightSavingsOffset (platform-win32.cc:352-354). -/
def DaylightSavingsOffset (cache : TZInfo) (env : TimeEnv) (jstime : Int) : Int :=
  if InDST cache env jstime then 60 * kMsPerMinute else 0

/-- Win32Time::LocalTimezone (platform-win32.cc:359-363). -/
def LocalTimezone (cache : TZInfo) (env : TimeEnv) (jstime : Int) : String :=
  if InDST cache env jstime then cache.dstName else cache.stdName

/-- WindowsTimezoneCache::LocalTimeOffset (platform-win32.cc:399-407):
ignores `time_ms` and `is_utc`, evaluates at the current wall clock
(`now` models OS::TimeCurrentMillis()), and subtracts the daylight
offset. -/
def LocalTimeOffset (cache : TZInfo) (env : TimeEnv) (time_ms : Int)
    (is_utc : Bool) (now : Int) : Int :=
  LocalOffset cache env now - DaylightSavingsOffset cache env now

/-! ### Helper lemmas -/

theorem RoundUp_mod (x m : Nat) : RoundUp x m % m = 0 :=
  Nat.mul_mod_left _ _

theorem dvd_RoundUp (x m : Nat) : m ∣ RoundUp x m :=
  dvd_mul_left m ((x + m - 1) / m)

theorem RoundUp_pos (x m : Nat) (hx : 0 < x) (hm : 0 < m) : 0 < RoundUp x m := by
  unfold RoundUp
  have h1 : m ≤ x + m - 1 := by omega
  have h2 : 1 ≤ (x + m - 1) / m := by
    rw [Nat.le_div_iff_mul_le hm]
    omega
  calc 0 < 1 * m := by omega
    _ ≤ (x + m - 1) / m * m := Nat.mul_le_mul_right m h2

theorem RoundUp_ne_of_mod_ne (x m : Nat) (h : x % m ≠ 0) : x ≠ RoundUp x m := by
  intro he
  apply h
  rw [he]
  exact RoundUp_mod x m

/-! ### Claim theorems -/

/-- Claim C10: when the cached timezone rules carry no transition dates
(both transition months are 0), InDST is false for every timestamp, hence
DaylightSavingsOffset is 0 and LocalTimezone yields the standard name. -/
theorem no_transition_dates_no_dst (cache : TZInfo) (env : TimeEnv) (t : Int)
    (hs : cache.StandardDateMonth = 0) (hd : cache.DaylightDateMonth = 0) :
    InDST cache env t = false ∧ DaylightSavingsOffset cache env t = 0 ∧
      LocalTimezone cache env t = cache.stdName := by
  have h : InDST cache env t = false := by
    unfold InDST
    simp [hs, hd]
  refine ⟨h, ?_, ?_⟩ <;> simp [DaylightSavingsOffset, LocalTimezone, h]

/-- A concrete rule set with zeroed transition months. -/
def tzC10 : TZInfo :=
  TZInfo.mk (-60) 0 (-60) 0 0 "Central Europe Standard Time"
    "Central Europe Daylight Time"

/-- A concrete localtime table reporting DST on every breakdown. -/
def timeEnvC10 : TimeEnv := TimeEnv.mk fun _ => some (TM.mk 1)

/-- Witness for C10 at a concrete rule set and timestamp. -/
theorem no_transition_dates_no_dst_witness :
    InDST tzC10 timeEnvC10 0 = false ∧
      DaylightSavingsOffset tzC10 timeEnvC10 0 = 0 ∧
      LocalTimezone tzC10 timeEnvC10 0 = tzC10.stdName :=
  no_transition_dates_no_dst tzC10 timeEnvC10 0 rfl rfl

/-- A rule set with a nonzero StandardBias and transitions present. -/
def tzC9 : TZInfo := TZInfo.mk (-60) (-30) (-60) 10 3 "S" "D"

/-- A localtime table whose breakdowns report DST before second 1000 and
standard time afterwards (a DST transition of the wall clock). -/
def timeEnvC9 : TimeEnv :=
  TimeEnv.mk fun s => if s < 1000 then some (TM.mk 1) else some (TM.mk 0)

/-- Claim C9 counterexample: two local-offset queries of the timezone
cache at the same timestamp 42, with no Clear in between, return
different results (3600000 vs 5400000) because the computation uses the
current wall clock, which crossed a DST transition between the calls.
The query is therefore not a pure function of the rule set and t. -/
theorem localTimeOffset_not_pure_in_t :
    LocalTimeOffset tzC9 timeEnvC9 42 true 0 = 3600000 ∧
      LocalTimeOffset tzC9 timeEnvC9 42 true 1000000000 = 5400000 ∧
      LocalTimeOffset tzC9 timeEnvC9 42 true 0 ≠
        LocalTimeOffset tzC9 timeEnvC9 42 true 1000000000 := by
  refine ⟨by decide, by decide, by decide⟩

/-- Claim C9 (amended): the cache's local-offset query ignores its
timestamp and UTC-flag arguments entirely; it is a function of the rule
set, the localtime table and the current wall-clock reading only. -/
theorem localTimeOffset_ignores_timestamp (cache : TZInfo) (env : TimeEnv)
    (t1 t2 : Int) (u1 u2 : Bool) (now : Int) :
    LocalTimeOffset cache env t1 u1 now = LocalTimeOffset cache env t2 u2 now :=
  rfl

/-- An environment whose VirtualAlloc always succeeds at 65536. -/
def envC4 : WinMM := WinMM.mk (fun _ _ _ _ _ => 65536) (fun _ _ _ _ => true)

/-- Claim C4 counterexample: kNoAccess and kNoAccessWillJitLater map to
the same protection, yet Allocate issues different OS requests for them:
kNoAccess reserves only (MEM_RESERVE) while kNoAccessWillJitLater
reserves and commits (MEM_RESERVE | MEM_COMMIT), so the reservation /
commit behaviour is not identical. -/
theorem noaccess_jit_flags_differ :
    GetProtectionFromMemoryPermission true MemoryPermission.kNoAccess =
      GetProtectionFromMemoryPermission true MemoryPermission.kNoAccessWillJitLater ∧
    (Allocate envC4 true true 0 65536 65536 65536 MemoryPermission.kNoAccess).2.2 =
      [Event.valloc 0 65536 MEM_RESERVE PAGE_NOACCESS] ∧
    (Allocate envC4 true true 0 65536 65536 65536
        MemoryPermission.kNoAccessWillJitLater).2.2 =
      [Event.valloc 0 65536 (MEM_RESERVE ||| MEM_COMMIT) PAGE_NOACCESS] ∧
    (Allocate envC4 true true 0 65536 65536 65536 MemoryPermission.kNoAccess).2.2 ≠
      (Allocate envC4 true true 0 65536 65536 65536
        MemoryPermission.kNoAccessWillJitLater).2.2 := by
  refine ⟨by decide, by decide, by decide, by decide⟩

/-- Claim C4 (amended): the two permissions produce the same OS page
protection (PAGE_NOACCESS), but only kNoAccess maps to a reserve-only
request; kNoAccessWillJitLater additionally commits. -/
theorem noaccess_jit_same_protection_different_flags (w : Bool) :
    GetProtectionFromMemoryPermission w MemoryPermission.kNoAccess =
      GetProtectionFromMemoryPermission w MemoryPermission.kNoAccessWillJitLater ∧
    allocationFlags MemoryPermission.kNoAccess = MEM_RESERVE ∧
    allocationFlags MemoryPermission.kNoAccessWillJitLater =
      MEM_RESERVE ||| MEM_COMMIT := by
  cases w <;> exact ⟨by decide, by decide, by decide⟩

/-- A file environment where only MapViewOfFile fails. -/
def fileEnvC5 : FileEnv := FileEnv.mk 5 4096 7 0

/-- Claim C5 counterexample: with a MapViewOfFile failure (an OS
failure), MemoryMappedFile::open does not return null: it returns a
non-null object whose memory pointer is null and whose size is the file
size. -/
theorem openFile_mapview_failure_not_null :
    fileEnvC5.mapViewOfFile = 0 ∧
      MemoryMappedFile.openFile fileEnvC5 FileMode.kReadOnly =
        some (Win32MemoryMappedFile.mk 5 7 0 4096) ∧
      MemoryMappedFile.openFile fileEnvC5 FileMode.kReadOnly ≠ none := by
  refine ⟨by decide, by decide, by decide⟩

/-- Claim C5 (amended): open returns null when CreateFileA fails
(INVALID_HANDLE_VALUE) or when CreateFileMapping fails; create returns
null when its (never-matching) nullptr check fires or when
CreateFileMapping fails; a zero-length file / zero size yields a
degenerate valid object with null memory and size 0; a MapViewOfFile
failure is not reported as null — the object is returned with a null
memory pointer; every constructed object is safely destructible (the
destructor closes the file, and never unmaps a null view). -/
theorem mappedFile_return_paths (env : FileEnv) (mode : FileMode) (size : Nat) :
    (env.createFileA = INVALID_HANDLE_VALUE →
      MemoryMappedFile.openFile env mode = none) ∧
    (env.createFileA ≠ INVALID_HANDLE_VALUE → env.getFileSize = 0 →
      MemoryMappedFile.openFile env mode =
        some (Win32MemoryMappedFile.mk env.createFileA 0 0 0)) ∧
    (env.createFileA ≠ INVALID_HANDLE_VALUE → env.getFileSize ≠ 0 →
      env.createFileMapping = 0 → MemoryMappedFile.openFile env mode = none) ∧
    (env.createFileA ≠ INVALID_HANDLE_VALUE → env.getFileSize ≠ 0 →
      env.createFileMapping ≠ 0 →
      MemoryMappedFile.openFile env mode =
        some (Win32MemoryMappedFile.mk env.createFileA env.createFileMapping
          env.mapViewOfFile env.getFileSize)) ∧
    (env.createFileA ≠ 0 →
      MemoryMappedFile.create env 0 =
        some (Win32MemoryMappedFile.mk env.createFileA 0 0 0)) ∧
    (env.createFileA ≠ 0 → size ≠ 0 → env.createFileMapping = 0 →
      MemoryMappedFile.create env size = none) ∧
    (env.createFileA ≠ 0 → size ≠ 0 → env.createFileMapping ≠ 0 →
      MemoryMappedFile.create env size =
        some (Win32MemoryMappedFile.mk env.createFileA env.createFileMapping
          env.mapViewOfFile size)) ∧
    (∀ m : Win32MemoryMappedFile, DtorEvent.closeFile ∈ destructor m ∧
      (m.memory = 0 → DtorEvent.unmapView ∉ destructor m)) := by
  refine ⟨?_, ?_, ?_, ?_, ?_, ?_, ?_, ?_⟩
  · intro h; simp [MemoryMappedFile.openFile, h]
  · intro h1 h2; simp [MemoryMappedFile.openFile, h1, h2]
  · intro h1 h2 h3; simp [MemoryMappedFile.openFile, h1, h2, h3]
  · intro h1 h2 h3; simp [MemoryMappedFile.openFile, h1, h2, h3]
  · intro h; simp [MemoryMappedFile.create, h]
  · intro h1 h2 h3; simp [MemoryMappedFile.create, h1, h2, h3]
  · intro h1 h2 h3; simp [MemoryMappedFile.create, h1, h2, h3]
  · intro m
    refine ⟨?_, ?_⟩
    · unfold destructor
      simp
    · intro hm
      unfold destructor
      simp only [hm]
      split <;> simp_all

/-- Witness for the amended C5 at the concrete MapView-failure
environment (open succeeds with a null memory pointer). -/
theorem mappedFile_return_paths_witness :
    MemoryMappedFile.openFile fileEnvC5 FileMode.kReadOnly =
      some (Win32MemoryMappedFile.mk fileEnvC5.createFileA
        fileEnvC5.createFileMapping fileEnvC5.mapViewOfFile
        fileEnvC5.getFileSize) :=
  (mappedFile_return_paths fileEnvC5 FileMode.kReadOnly 1).2.2.2.1
    (by decide) (by decide) (by decide)

/-- An environment whose VirtualAlloc always fails and whose VirtualFree
always succeeds. -/
def envC6 : WinMM := WinMM.mk (fun _ _ _ _ _ => 0) (fun _ _ _ _ => true)

/-- Claim C6 counterexample: with DiscardVirtualMemory unavailable and
the MEM_RESET fallback VirtualAlloc failing, OS::DiscardSystemPages hits
CHECK(ptr) and aborts the process: the failure is not reported to the
caller as a false return. -/
theorem discardSystemPages_aborts_on_reset_failure :
    (DiscardSystemPages envC6 none 0 65536 4096).1 = BoolResult.aborted ∧
      ∀ b : Bool, (DiscardSystemPages envC6 none 0 65536 4096).1 ≠ BoolResult.ok b := by
  refine ⟨by decide, ?_⟩
  intro b; cases b <;> decide

/-- The padded-retry loop never aborts when every VirtualFree succeeds. -/
theorem allocAttempts_no_abort (env : WinMM) (useAslr : Bool)
    (flags protect size alignment paddedSize : Nat)
    (hfree : ∀ k a s t, env.vfree k a s t = true) :
    ∀ fuel k,
      (allocAttempts env useAslr flags protect size alignment paddedSize fuel k).1 ≠
        AllocResult.aborted := by
  intro fuel
  induction fuel with
  | zero => intro k; simp [allocAttempts]
  | succ n ih =>
    intro k
    simp only [allocAttempts, Free, hfree]
    split
    · simp
    · split
      · simp_all
      · split
        · exact ih _
        · simp

/-- Claim C6 (amended): Allocate never aborts while its CHECKed
VirtualFree calls succeed and reports OOM as a null base; SetPermissions
reports a commit failure as false; but a DiscardSystemPages whose
MEM_RESET fallback fails aborts the process instead of returning
false. -/
theorem platform_failure_reporting (env : WinMM) (isWin10 useAslr : Bool)
    (hint size alignment pageSize k address sz : Nat)
    (access : MemoryPermission)
    (hfree : ∀ k a s t, env.vfree k a s t = true) :
    (Allocate env isWin10 useAslr hint size alignment pageSize access).1 ≠
      AllocResult.aborted ∧
    (access ≠ MemoryPermission.kNoAccess →
      env.valloc k address sz MEM_COMMIT
          (GetProtectionFromMemoryPermission isWin10 access) = 0 →
      (SetPermissions env isWin10 k address sz access).1 = false) ∧
    (env.valloc k address sz MEM_RESET PAGE_READWRITE = 0 →
      (DiscardSystemPages env none k address sz).1 = BoolResult.aborted) := by
  refine ⟨?_, ?_, ?_⟩
  · simp only [Allocate, Free, hfree]
    split
    · simp
    · split
      · simp
      · split
        · simp_all
        · exact allocAttempts_no_abort env useAslr _ _ size alignment _ hfree _ _
  · intro h1 h2
    simp [SetPermissions, h1, h2]
  · intro h
    simp [DiscardSystemPages, discardFallback, h]

/-- Witness for the amended C6 at the always-failing environment. -/
theorem platform_failure_reporting_witness :
    (Allocate envC6 true true 0 4096 4096 4096 MemoryPermission.kReadWrite).1 ≠
      AllocResult.aborted ∧
    (SetPermissions envC6 true 0 65536 4096 MemoryPermission.kReadWrite).1 = false ∧
    (DiscardSystemPages envC6 none 0 65536 4096).1 = BoolResult.aborted := by
  have h := platform_failure_reporting envC6 true true 0 4096 4096 4096 0 65536 4096
    MemoryPermission.kReadWrite (fun _ _ _ _ => rfl)
  exact ⟨h.1, h.2.1 (by decide) (by decide), h.2.2 (by decide)⟩

/-- An environment whose VirtualAlloc always fails. -/
def envC2 : WinMM := WinMM.mk (fun _ _ _ _ _ => 0) (fun _ _ _ _ => true)

/-- Claim C2 counterexample: for permission kRead — neither executable
nor reserved-with-no-access — Allocate still passes the aligned hint to
the first VirtualAlloc call (the first OS request carries lpAddress
65536, the hint), so hinted placement is not restricted to executable or
no-access permissions. -/
theorem kRead_uses_hint :
    MemoryPermission.kRead ≠ MemoryPermission.kReadExecute ∧
    MemoryPermission.kRead ≠ MemoryPermission.kReadWriteExecute ∧
    MemoryPermission.kRead ≠ MemoryPermission.kNoAccess ∧
    MemoryPermission.kRead ≠ MemoryPermission.kNoAccessWillJitLater ∧
    (Allocate envC2 true true 65536 4096 4096 4096
        MemoryPermission.kRead).2.2.head? =
      some (Event.valloc 65536 4096 (MEM_RESERVE ||| MEM_COMMIT) PAGE_READONLY) := by
  refine ⟨by decide, by decide, by decide, by decide, by decide⟩

/-- Claim C2 (amended): the hinted call is issued exactly when ASLR is
in use and the mapped protection is not PAGE_READWRITE (that is, for
every permission except ReadWrite); a plain read-write allocation never
passes the hint — its first OS request always has a null lpAddress; and
a failed hinted call is followed by exactly one retry with a null hint,
whose result is final. -/
theorem randomized_hint_usage (env : WinMM) (useAslr : Bool)
    (k size flags protect hint alignment pageSize : Nat) :
    (protect = PAGE_READWRITE ∨ useAslr = false →
      RandomizedVirtualAlloc env useAslr k size flags protect hint =
        (env.valloc k 0 size flags protect, k + 1,
          [Event.valloc 0 size flags protect])) ∧
    (useAslr = true → protect ≠ PAGE_READWRITE →
      (env.valloc k hint size flags protect ≠ 0 →
        RandomizedVirtualAlloc env useAslr k size flags protect hint =
          (env.valloc k hint size flags protect, k + 1,
            [Event.valloc hint size flags protect])) ∧
      (env.valloc k hint size flags protect = 0 →
        RandomizedVirtualAlloc env useAslr k size flags protect hint =
          (env.valloc (k + 1) 0 size flags protect, k + 2,
            [Event.valloc hint size flags protect,
             Event.valloc 0 size flags protect]))) ∧
    (∀ isWin10 : Bool,
      (Allocate env isWin10 useAslr hint size alignment pageSize
          MemoryPermission.kReadWrite).2.2.head? =
        some (Event.valloc 0 size (MEM_RESERVE ||| MEM_COMMIT) PAGE_READWRITE)) := by
  refine ⟨?_, ?_, ?_⟩
  · intro h
    unfold RandomizedVirtualAlloc
    rcases h with h | h
    · simp [h]
    · simp [h]
  · intro ha hp
    constructor
    · intro h
      unfold RandomizedVirtualAlloc
      simp [ha, hp, h]
    · intro h
      unfold RandomizedVirtualAlloc
      simp [ha, hp, h]
  · intro isWin10
    simp only [Allocate, RandomizedVirtualAlloc, allocationFlags,
      GetProtectionFromMemoryPermission]
    simp only [reduceCtorEq, if_false, ne_eq, not_true_eq_false, and_false, if_neg,
      not_false_eq_true]
    split
    · simp
    · split
      · simp
      · split
        · simp
        · simp

/-- The padded-retry loop returns only a null base or an
alignment-aligned base, given the Win32 semantics of VirtualAlloc at a
non-null lpAddress: on success it returns the request address rounded
down to the allocation granularity. -/
theorem allocAttempts_aligned (env : WinMM) (useAslr : Bool)
    (flags protect size alignment paddedSize pageSize : Nat)
    (hps : 0 < pageSize) (hpa : pageSize ∣ alignment)
    (hal : pageSize ≤ alignment)
    (hpin : ∀ k a sz fl pr, a ≠ 0 → env.valloc k a sz fl pr ≠ 0 →
      env.valloc k a sz fl pr = a - a % pageSize) :
    ∀ fuel k A,
      (allocAttempts env useAslr flags protect size alignment paddedSize fuel k).1 =
        AllocResult.ok A → A = 0 ∨ A % alignment = 0 := by
  have halign : 0 < alignment := lt_of_lt_of_le hps hal
  intro fuel
  induction fuel with
  | zero =>
    intro k A h
    simp only [allocAttempts, AllocResult.ok.injEq] at h
    exact Or.inl h.symm
  | succ n ih =>
    intro k A h
    simp only [allocAttempts] at h
    split at h
    · simp only [AllocResult.ok.injEq] at h
      exact Or.inl h.symm
    · split at h
      · simp at h
      · split at h
        · exact ih _ _ h
        · rename_i hbase hfr hb2
          simp only [AllocResult.ok.injEq] at h
          subst h
          have hpos := RoundUp_pos
            (RandomizedVirtualAlloc env useAslr k paddedSize flags protect 0).1
            alignment (Nat.pos_of_ne_zero hbase) halign
          have hane :
              RoundUp (RandomizedVirtualAlloc env useAslr k paddedSize flags
                protect 0).1 alignment ≠ 0 := Nat.pos_iff_ne_zero.mp hpos
          have hmod :
              RoundUp (RandomizedVirtualAlloc env useAslr k paddedSize flags
                protect 0).1 alignment % pageSize = 0 :=
            Nat.mod_eq_zero_of_dvd
              (dvd_trans hpa (dvd_RoundUp _ alignment))
          rw [hpin _ _ _ _ _ hane hb2, hmod, Nat.sub_zero]
          exact Or.inr (RoundUp_mod _ _)

/-- Claim C1: under Allocate's preconditions (size and alignment
multiples of the allocation granularity, alignment at least the
granularity) and the Win32 semantics of pinned VirtualAlloc (success at
a non-null lpAddress returns that address rounded down to the
granularity), every base returned by Allocate is either null (OOM) or
aligned to the requested alignment. -/
theorem allocate_aligned (env : WinMM) (isWin10 useAslr : Bool)
    (hint size alignment pageSize : Nat) (access : MemoryPermission)
    (hps : 0 < pageSize) (hsz : pageSize ∣ size) (hpa : pageSize ∣ alignment)
    (hal : pageSize ≤ alignment)
    (hpin : ∀ k a sz fl pr, a ≠ 0 → env.valloc k a sz fl pr ≠ 0 →
      env.valloc k a sz fl pr = a - a % pageSize)
    (A : Nat)
    (hA : (Allocate env isWin10 useAslr hint size alignment pageSize access).1 =
      AllocResult.ok A) :
    A = 0 ∨ A % alignment = 0 := by
  simp only [Allocate] at hA
  split at hA
  · simp only [AllocResult.ok.injEq] at hA
    exact Or.inl hA.symm
  · split at hA
    · rename_i hbase heq
      simp only [AllocResult.ok.injEq] at hA
      subst hA
      exact Or.inr (by rw [heq]; exact RoundUp_mod _ _)
    · split at hA
      · simp at hA
      · exact allocAttempts_aligned env useAslr _ _ size alignment _ pageSize
          hps hpa hal hpin _ _ _ hA

/-- A concrete environment: OS-chosen placements land at 16384, pinned
requests succeed at the granularity-rounded request address. -/
def envC1 : WinMM :=
  WinMM.mk (fun _ a _ _ _ => if a = 0 then 16384 else a - a % 4096)
    (fun _ _ _ _ => true)

/-- Witness for C1 at a concrete environment: the base 16384 returned
for alignment 8192 is null-or-aligned. -/
theorem allocate_aligned_witness :
    (16384 : Nat) = 0 ∨ (16384 : Nat) % 8192 = 0 :=
  allocate_aligned envC1 true true 0 4096 8192 4096
    MemoryPermission.kReadWrite (by decide) (by decide) (by decide) (by decide)
    (fun k a sz fl pr h1 _ => by simp [envC1, h1])
    16384 (by decide)

/-- Claim C3: when the first exact-size allocation returns a misaligned
base b0, Allocate frees that region, clears the hint, and performs
exactly kMaxAttempts = 3 padded attempts; each requests
size + alignment - granularity bytes with no hint, frees the padded
region, and re-requests exactly size bytes pinned at the aligned
sub-address inside it; with all three pinned requests failing (the racy
case) the result is null. The conclusion exhibits the complete OS
request trace. -/
theorem allocate_padded_retry (env : WinMM) (isWin10 useAslr : Bool)
    (hint size alignment pageSize b0 b1 b2 b3 : Nat)
    (hfree : ∀ k a s t, env.vfree k a s t = true)
    (h0 : env.valloc 0 0 size (MEM_RESERVE ||| MEM_COMMIT) PAGE_READWRITE = b0)
    (hb0 : b0 ≠ 0) (hmis : b0 % alignment ≠ 0)
    (h2 : env.valloc 2 0 (size + (alignment - pageSize))
      (MEM_RESERVE ||| MEM_COMMIT) PAGE_READWRITE = b1) (hb1 : b1 ≠ 0)
    (h4 : env.valloc 4 (RoundUp b1 alignment) size
      (MEM_RESERVE ||| MEM_COMMIT) PAGE_READWRITE = 0)
    (h5 : env.valloc 5 0 (size + (alignment - pageSize))
      (MEM_RESERVE ||| MEM_COMMIT) PAGE_READWRITE = b2) (hb2 : b2 ≠ 0)
    (h7 : env.valloc 7 (RoundUp b2 alignment) size
      (MEM_RESERVE ||| MEM_COMMIT) PAGE_READWRITE = 0)
    (h8 : env.valloc 8 0 (size + (alignment - pageSize))
      (MEM_RESERVE ||| MEM_COMMIT) PAGE_READWRITE = b3) (hb3 : b3 ≠ 0)
    (h10 : env.valloc 10 (RoundUp b3 alignment) size
      (MEM_RESERVE ||| MEM_COMMIT) PAGE_READWRITE = 0) :
    Allocate env isWin10 useAslr hint size alignment pageSize
        MemoryPermission.kReadWrite =
      (AllocResult.ok 0, 11,
        [Event.valloc 0 size (MEM_RESERVE ||| MEM_COMMIT) PAGE_READWRITE,
         Event.vfree b0 0 MEM_RELEASE,
         Event.valloc 0 (size + (alignment - pageSize))
           (MEM_RESERVE ||| MEM_COMMIT) PAGE_READWRITE,
         Event.vfree b1 0 MEM_RELEASE,
         Event.valloc (RoundUp b1 alignment) size
           (MEM_RESERVE ||| MEM_COMMIT) PAGE_READWRITE,
         Event.valloc 0 (size + (alignment - pageSize))
           (MEM_RESERVE ||| MEM_COMMIT) PAGE_READWRITE,
         Event.vfree b2 0 MEM_RELEASE,
         Event.valloc (RoundUp b2 alignment) size
           (MEM_RESERVE ||| MEM_COMMIT) PAGE_READWRITE,
         Event.valloc 0 (size + (alignment - pageSize))
           (MEM_RESERVE ||| MEM_COMMIT) PAGE_READWRITE,
         Event.vfree b3 0 MEM_RELEASE,
         Event.valloc (RoundUp b3 alignment) size
           (MEM_RESERVE ||| MEM_COMMIT) PAGE_READWRITE]) := by
  have hne : b0 ≠ RoundUp b0 alignment := RoundUp_ne_of_mod_ne b0 alignment hmis
  simp [Allocate, RandomizedVirtualAlloc, allocAttempts, Free, allocationFlags,
    GetProtectionFromMemoryPermission, kMaxAttempts, AlignedAddress,
    hfree, h0, hb0, hne, h2, hb1, h4, h5, hb2, h7, h8, hb3, h10]

/-- A concrete environment for the padded-retry scenario: the OS-chosen
placements return a misaligned 4096 first and then 20480; every pinned
request loses the race and fails. -/
def envC3 : WinMM :=
  WinMM.mk
    (fun k a _ _ _ => if k = 0 then 4096 else if a = 0 then 20480 else 0)
    (fun _ _ _ _ => true)

/-- Witness for C3: the full padded-retry trace at a concrete
environment with size 4096, alignment 8192, granularity 4096. -/
theorem allocate_padded_retry_witness :
    Allocate envC3 true true 0 4096 8192 4096 MemoryPermission.kReadWrite =
      (AllocResult.ok 0, 11,
        [Event.valloc 0 4096 (MEM_RESERVE ||| MEM_COMMIT) PAGE_READWRITE,
         Event.vfree 4096 0 MEM_RELEASE,
         Event.valloc 0 8192 (MEM_RESERVE ||| MEM_COMMIT) PAGE_READWRITE,
         Event.vfree 20480 0 MEM_RELEASE,
         Event.valloc (RoundUp 20480 8192) 4096
           (MEM_RESERVE ||| MEM_COMMIT) PAGE_READWRITE,
         Event.valloc 0 8192 (MEM_RESERVE ||| MEM_COMMIT) PAGE_READWRITE,
         Event.vfree 20480 0 MEM_RELEASE,
         Event.valloc (RoundUp 20480 8192) 4096
           (MEM_RESERVE ||| MEM_COMMIT) PAGE_READWRITE,
         Event.valloc 0 8192 (MEM_RESERVE ||| MEM_COMMIT) PAGE_READWRITE,
         Event.vfree 20480 0 MEM_RELEASE,
         Event.valloc (RoundUp 20480 8192) 4096
           (MEM_RESERVE ||| MEM_COMMIT) PAGE_READWRITE]) :=
  allocate_padded_retry envC3 true true 0 4096 8192 4096 4096 20480 20480 20480
    (fun _ _ _ _ => rfl) (by decide) (by decide) (by decide) (by decide)
    (by decide) (by decide) (by decide) (by decide) (by decide) (by decide)
    (by decide) (by decide)

/-- If the enumeration loop ends with `symbols_loaded` set, the list it
returns is exactly the list stored in the resulting state. -/
theorem loadModulesLoop_memo (env : DbgEnv) (st : DbgState)
    (hst : st.symbols_loaded = false) :
    ∀ ms i acc,
      (loadModulesLoop env st i ms acc).2.1.symbols_loaded = true →
      (loadModulesLoop env st i ms acc).1 =
        (loadModulesLoop env st i ms acc).2.1.result := by
  intro ms
  induction ms with
  | nil =>
    intro i acc _
    simp [loadModulesLoop]
  | cons m ms ih =>
    intro i acc
    by_cases hc : env.symLoadBase i = 0 ∧ env.lastError i ≠ ERROR_MOD_NOT_FOUND ∧
        env.lastError i ≠ ERROR_INVALID_HANDLE
    · intro h
      simp only [loadModulesLoop, if_pos hc] at h
      simp [hst] at h
    · intro h
      simp only [loadModulesLoop, if_neg hc] at h ⊢
      exact ih (i + 1) _ h

/-- The enumeration loop never touches the `dbghelp_loaded` flag. -/
theorem loadModulesLoop_dbghelp (env : DbgEnv) (st : DbgState) :
    ∀ ms i acc,
      (loadModulesLoop env st i ms acc).2.1.dbghelp_loaded = st.dbghelp_loaded := by
  intro ms
  induction ms with
  | nil => intro i acc; simp [loadModulesLoop]
  | cons m ms ih =>
    intro i acc
    by_cases hc : env.symLoadBase i = 0 ∧ env.lastError i ≠ ERROR_MOD_NOT_FOUND ∧
        env.lastError i ≠ ERROR_INVALID_HANDLE
    · simp [loadModulesLoop, if_pos hc]
    · simp only [loadModulesLoop, if_neg hc]
      exact ih (i + 1) _

/-- LoadSymbols: whenever it ends with `symbols_loaded` set (a
successful pass, or an already-memoized state), its return value is the
stored vector; and it never changes the `dbghelp_loaded` flag. -/
theorem loadSymbols_memo_state (env : DbgEnv) (st : DbgState)
    (hst : st.symbols_loaded = false) :
    ((LoadSymbols env st).2.1.symbols_loaded = true →
      (LoadSymbols env st).1 = (LoadSymbols env st).2.1.result) ∧
    (LoadSymbols env st).2.1.dbghelp_loaded = st.dbghelp_loaded := by
  unfold LoadSymbols
  rw [hst]
  by_cases h1 : env.symInitOk
  · by_cases h2 : env.symGetSearchPathOk
    · by_cases h3 : env.snapshotOk
      · simp only [h1, h2, h3, Bool.true_eq_false, if_false, if_neg]
        constructor
        · intro h
          exact loadModulesLoop_memo env st hst env.modules 0 st.result h
        · exact loadModulesLoop_dbghelp env st env.modules 0 st.result
      · simp [h1, h2, h3, hst]
    · simp [h1, h2, hst]
  · simp [h1, hst]

/-- Claim C7 (amended): when dbghelp.dll is missing, every call returns
the empty sequence, but the load is retried: the state keeps
`dbghelp_loaded = false` and the call's OS trace repeats the LoadLibrary
request. Once the flags are set (a fully successful pass), a call
returns the memoized vector unchanged with an empty OS trace; and any
call that ends with `symbols_loaded` set returns exactly the vector
memoized in its final state. -/
theorem sharedLibrary_degradation_and_memo (env : DbgEnv) (st : DbgState) :
    (env.loadLibrary dbghelpDll = 0 → st.dbghelp_loaded = false →
      GetSharedLibraryAddresses env st =
        ([], st, [DbgEvent.loadLibrary dbghelpDll])) ∧
    (st.dbghelp_loaded = true → st.symbols_loaded = true →
      GetSharedLibraryAddresses env st = (st.result, st, [])) ∧
    (st.symbols_loaded = false →
      (GetSharedLibraryAddresses env st).2.1.symbols_loaded = true →
      (GetSharedLibraryAddresses env st).1 =
        (GetSharedLibraryAddresses env st).2.1.result ∧
      (GetSharedLibraryAddresses env st).2.1.dbghelp_loaded = true) := by
  refine ⟨?_, ?_, ?_⟩
  · intro h1 h2
    simp [GetSharedLibraryAddresses, LoadDbgHelpAndTlHelp32, h1, h2]
  · intro h1 h2
    simp [GetSharedLibraryAddresses, LoadDbgHelpAndTlHelp32, LoadSymbols, h1, h2]
  · intro hsl h
    by_cases hd : st.dbghelp_loaded
    · have hl : LoadDbgHelpAndTlHelp32 env st = (true, st, []) := by
        simp [LoadDbgHelpAndTlHelp32, hd]
      have hms := loadSymbols_memo_state env st hsl
      unfold GetSharedLibraryAddresses at h ⊢
      rw [hl] at h ⊢
      simp only [Bool.true_eq_false, if_false, if_neg, List.nil_append] at h ⊢
      exact ⟨hms.1 h, by rw [hms.2]; exact hd⟩
    · by_cases hlib : env.loadLibrary dbghelpDll = 0
      · have hl : LoadDbgHelpAndTlHelp32 env st =
            (false, st, [DbgEvent.loadLibrary dbghelpDll]) := by
          simp [LoadDbgHelpAndTlHelp32, hd, hlib]
        unfold GetSharedLibraryAddresses at h
        rw [hl] at h
        simp [hsl] at h
      · by_cases hker : env.loadLibrary kernel32Dll = 0
        · have hl : LoadDbgHelpAndTlHelp32 env st =
              (false, st,
                DbgEvent.loadLibrary dbghelpDll :: dbghelpProcEvents ++
                  [DbgEvent.loadLibrary kernel32Dll]) := by
            simp [LoadDbgHelpAndTlHelp32, hd, hlib, hker]
          unfold GetSharedLibraryAddresses at h
          rw [hl] at h
          simp [hsl] at h
        · by_cases hok : ((List.range 13).all fun i => env.getProcAddress i != 0) = true
          · have hl : LoadDbgHelpAndTlHelp32 env st =
                (true, { st with dbghelp_loaded := true },
                  DbgEvent.loadLibrary dbghelpDll :: dbghelpProcEvents ++
                    DbgEvent.loadLibrary kernel32Dll :: tlhelpProcEvents) := by
              simp [LoadDbgHelpAndTlHelp32, hd, hlib, hker, hok]
            have hms := loadSymbols_memo_state env { st with dbghelp_loaded := true }
              (by simpa using hsl)
            unfold GetSharedLibraryAddresses at h ⊢
            rw [hl] at h ⊢
            simp only [Bool.true_eq_false, if_false, if_neg] at h ⊢
            exact ⟨hms.1 h, hms.2⟩
          · have hl : LoadDbgHelpAndTlHelp32 env st =
                (false, { st with dbghelp_loaded := false },
                  DbgEvent.loadLibrary dbghelpDll :: dbghelpProcEvents ++
                    DbgEvent.loadLibrary kernel32Dll :: tlhelpProcEvents) := by
              simp only [LoadDbgHelpAndTlHelp32, hd, hlib, hker, if_neg, if_false,
                Bool.false_eq_true]
              simp only [Bool.not_eq_true] at hok
              rw [hok]
            unfold GetSharedLibraryAddresses at h
            rw [hl] at h
            simp [hsl] at h

/-- A diagnostics environment where dbghelp.dll is missing. -/
def dbgEnvC7 : DbgEnv :=
  DbgEnv.mk (fun _ => 0) (fun _ => 0) true true true [] (fun _ => 0) (fun _ => 0)

/-- Claim C7 counterexample: with dbghelp.dll missing, both the first
and the second call return the empty sequence, but the second call's OS
trace still contains the LoadLibrary request: the failed load IS retried
on every call (dbghelp_loaded is only set after a successful load). -/
theorem sharedLibrary_failed_load_retries :
    (GetSharedLibraryAddresses dbgEnvC7 DbgState.init).1 = [] ∧
    (GetSharedLibraryAddresses dbgEnvC7
        (GetSharedLibraryAddresses dbgEnvC7 DbgState.init).2.1).1 = [] ∧
    (GetSharedLibraryAddresses dbgEnvC7
        (GetSharedLibraryAddresses dbgEnvC7 DbgState.init).2.1).2.2 =
      [DbgEvent.loadLibrary dbghelpDll] := by
  refine ⟨by decide, by decide, by decide⟩

/-- A state in which a successful pass has been memoized. -/
def dbgStLoaded : DbgState :=
  DbgState.mk true true [SharedLibraryAddress.mk "kernel32.dll" 4096 8192]

/-- Witness for the amended C7: the missing-library call returns empty
with a retried LoadLibrary request, and a memoized state is returned
unchanged with no OS requests. -/
theorem sharedLibrary_degradation_and_memo_witness :
    GetSharedLibraryAddresses dbgEnvC7 DbgState.init =
      ([], DbgState.init, [DbgEvent.loadLibrary dbghelpDll]) ∧
    GetSharedLibraryAddresses dbgEnvC7 dbgStLoaded =
      (dbgStLoaded.result, dbgStLoaded, []) :=
  ⟨(sharedLibrary_degradation_and_memo dbgEnvC7 DbgState.init).1 rfl rfl,
   (sharedLibrary_degradation_and_memo dbgEnvC7 dbgStLoaded).2.1 rfl rfl⟩

/-- The first 100ns-to-ms division inside LocalOffset is exact: the
1601-based timestamp of a whole-millisecond JS time is a multiple of
1000. -/
theorem win32_t_div1000 (jst : Int) :
    (jst * kTimeScaler + kTimeEpoc).tdiv 1000 = jst * 10 + 116444736000000 := by
  have e : jst * kTimeScaler + kTimeEpoc = (jst * 10 + 116444736000000) * 1000 := by
    simp only [kTimeScaler, kTimeEpoc]; ring
  rw [e, Int.mul_tdiv_cancel _ (by norm_num)]

/-- For a nonnegative JS time the rounded-second index is the floor of
jst/1000 shifted by the epoch difference. -/
theorem win32_q_of_nonneg (jst : Int) (h : 0 ≤ jst) :
    (jst * 10 + 116444736000000).tdiv kTimeScaler = jst / 1000 + 11644473600 := by
  simp only [kTimeScaler]
  have h10 : (0:Int) ≤ jst * 10 + 116444736000000 := by omega
  rw [Int.tdiv_eq_ediv h10 (by norm_num)]
  have e : jst * 10 + 116444736000000 = jst * 10 + 11644473600 * 10000 := by
    norm_num
  rw [e, Int.add_mul_ediv_right _ _ (by norm_num : (10000:Int) ≠ 0)]
  congr 1
  rw [show jst * 10 = 10 * jst by ring, show (10000:Int) = 10 * 1000 by norm_num,
    Int.mul_ediv_mul_of_pos _ _ (by norm_num : (0:Int) < 10)]

/-- For a negative JS time the rounded-second index falls short of the
epoch difference, so the derived POSIX time is negative. -/
theorem win32_q_of_neg (jst : Int) (h : jst < 0) :
    (jst * 10 + 116444736000000).tdiv kTimeScaler < 11644473600 := by
  simp only [kTimeScaler]
  rcases le_or_lt 0 (jst * 10 + 116444736000000) with hu | hu
  · rw [Int.tdiv_eq_ediv hu (by norm_num)]
    have h1 : jst * 10 + 116444736000000 ≤ 116444735999990 := by omega
    have h2 := Int.ediv_le_ediv (by norm_num : (0:Int) < 10000) h1
    have h3 : (116444735999990 : Int) / 10000 = 11644473599 := by decide
    omega
  · have h4 := Int.tdiv_nonneg
      (a := -(jst * 10 + 116444736000000)) (b := 10000) (by omega) (by norm_num)
    rw [Int.neg_tdiv] at h4
    omega

/-- The trailing divisions of LocalOffset cancel exactly, leaving the
rounded-second index minus the epoch difference. -/
theorem win32_posix_char (q : Int) :
    ((q * 1000 * kTimeScaler - kTimeEpoc).tdiv kTimeScaler).tdiv 1000 =
      q - 11644473600 := by
  have e1 : q * 1000 * kTimeScaler - kTimeEpoc =
      (q * 1000 - 11644473600000) * kTimeScaler := by
    simp only [kTimeScaler, kTimeEpoc]; ring
  rw [e1, Int.mul_tdiv_cancel _ (by norm_num [kTimeScaler])]
  have e2 : q * 1000 - 11644473600000 = (q - 11644473600) * 1000 := by ring
  rw [e2, Int.mul_tdiv_cancel _ (by norm_num)]

/-- Claim C8: LocalOffset first rounds the timestamp down to whole
seconds (the queried breakdown is at ⌊jst/1000⌋); if that value lies
outside the representable 32-bit time_t range [0, INT_MAX] it returns 0;
otherwise it converts to a local calendar breakdown and returns, in
milliseconds east of UTC, the daylight bias or the standard bias
according to whether daylight saving applies at that breakdown. -/
theorem localOffset_spec (cache : TZInfo) (env : TimeEnv) (jst : Int) :
    (0 ≤ jst / 1000 → jst / 1000 ≤ INT_MAX →
      ∀ tm, env.localtime (jst / 1000) = some tm → 0 ≤ tm.tm_isdst →
      LocalOffset cache env jst =
        if 0 < tm.tm_isdst then
          (cache.Bias + cache.DaylightBias) * (-kMsPerMinute)
        else (cache.Bias + cache.StandardBias) * (-kMsPerMinute)) ∧
    (jst / 1000 < 0 ∨ INT_MAX < jst / 1000 →
      LocalOffset cache env jst = 0) := by
  constructor
  · intro h1 h2 tm hlt hdst
    have hjst : 0 ≤ jst := by
      by_contra hneg
      push_neg at hneg
      exact absurd h1 (not_le.mpr (Int.ediv_neg' hneg (by norm_num)))
    have hpx : ((((jst * kTimeScaler + kTimeEpoc).tdiv 1000).tdiv kTimeScaler *
        1000 * kTimeScaler - kTimeEpoc).tdiv kTimeScaler).tdiv 1000 =
        jst / 1000 := by
      rw [win32_t_div1000, win32_posix_char, win32_q_of_nonneg jst hjst]
      ring
    simp only [LocalOffset, kTimeScaler] at hpx ⊢
    rw [hpx]
    rw [if_neg (by push_neg; exact ⟨h2, h1⟩)]
    rw [hlt]
    by_cases hpos : 0 < tm.tm_isdst
    · simp [hpos]
    · have h0 : tm.tm_isdst = 0 := le_antisymm (not_lt.mp hpos) hdst
      simp [hpos, h0]
  · intro hr
    rcases le_or_lt 0 jst with hjst | hjst
    · have hpx : ((((jst * kTimeScaler + kTimeEpoc).tdiv 1000).tdiv kTimeScaler *
          1000 * kTimeScaler - kTimeEpoc).tdiv kTimeScaler).tdiv 1000 =
          jst / 1000 := by
        rw [win32_t_div1000, win32_posix_char, win32_q_of_nonneg jst hjst]
        ring
      simp only [LocalOffset, kTimeScaler] at hpx ⊢
      rw [hpx, if_pos (Or.symm hr)]
    · have hq := win32_q_of_neg jst hjst
      have hpx : ((((jst * kTimeScaler + kTimeEpoc).tdiv 1000).tdiv kTimeScaler *
          1000 * kTimeScaler - kTimeEpoc).tdiv kTimeScaler).tdiv 1000 < 0 := by
        rw [win32_t_div1000, win32_posix_char]
        omega
      simp only [LocalOffset, kTimeScaler] at hpx ⊢
      rw [if_pos (Or.inr hpx)]

/-- A concrete localtime table reporting standard time everywhere. -/
def timeEnvC8 : TimeEnv := TimeEnv.mk fun _ => some (TM.mk 0)

/-- Witness for C8 at jst = 5000 ms: the breakdown at second 5 reports
standard time, so LocalOffset returns the standard bias east of UTC. -/
theorem localOffset_spec_witness :
    LocalOffset tzC9 timeEnvC8 5000 =
      if 0 < (TM.mk 0).tm_isdst then
        (tzC9.Bias + tzC9.DaylightBias) * (-kMsPerMinute)
      else (tzC9.Bias + tzC9.StandardBias) * (-kMsPerMinute) :=
  (localOffset_spec tzC9 timeEnvC8 5000).1 (by decide) (by decide)
    (TM.mk 0) rfl (by decide)

/-- Witness for the amended C2: with ASLR on and a PAGE_READONLY
protection the hinted call is made and, when it fails, exactly one
retry with a null hint follows. -/
theorem randomized_hint_usage_witness :
    RandomizedVirtualAlloc envC2 true 0 4096 (MEM_RESERVE ||| MEM_COMMIT)
        PAGE_READONLY 65536 =
      (envC2.valloc 1 0 4096 (MEM_RESERVE ||| MEM_COMMIT) PAGE_READONLY, 2,
        [Event.valloc 65536 4096 (MEM_RESERVE ||| MEM_COMMIT) PAGE_READONLY,
         Event.valloc 0 4096 (MEM_RESERVE ||| MEM_COMMIT) PAGE_READONLY]) :=
  ((randomized_hint_usage envC2 true 0 4096 (MEM_RESERVE ||| MEM_COMMIT)
      PAGE_READONLY 65536 4096 4096).2.1 rfl (by decide)).2 rfl

end V8
